import Mathlib

/-!
# Verification of the insurance Monte Carlo simulation

A shallow embedding of `insurancemonte.py`.  Scenario parameters are
rationals (the IEEE doubles fed to the program are exact rationals at every
comparison the code makes); the random number generator is modelled as an
explicit oracle supplying, for each trial, the Poisson draw for the number
of claims and the underlying standard-normal draws for the severities.
A scipy `lognorm(s=sigma, scale=exp(mu))` variate is `exp(mu + sigma * z)`
for a standard normal `z`, which is how `lognormSample` renders one draw;
scipy's generic argument check requires the shape `s > 0`, and `.rvs`
raises `ValueError("Domain error in arguments")` when it fails, so a trial
that draws at least one claim with `sigma_severity ≤ 0` aborts the call.
Python's `ValueError`/exception channel is modelled with `Except String`.
-/

namespace InsuranceMonte

/-- Embeds `validate_parameters` (insurancemonte.py lines 8-29): four range
checks in source order, raising (`Except.error`) at the first failure, with
the exact message strings of the source. -/
def validate_parameters (freq_rate prem invest_return exp_rate : ℚ) :
    Except String Unit :=
  if freq_rate < 0 then Except.error "Frequency rate must be non-negative"
  else if prem ≤ 0 then Except.error "Premiums must be positive"
  else if ¬ (0 ≤ invest_return ∧ invest_return ≤ 1) then
    Except.error "Investment return rate must be between 0 and 1"
  else if ¬ (0 ≤ exp_rate ∧ exp_rate ≤ 1) then
    Except.error "Expense rate must be between 0 and 1"
  else Except.ok ()

/-- The random oracle: for trial `i`, `num_claims i` is the value returned by
`np.random.poisson(freq_rate)` and `normal i j` is the `j`-th underlying
standard-normal draw used by `lognorm(...).rvs`. -/
structure RandomDraws where
  num_claims : ℕ → ℕ
  normal : ℕ → ℕ → ℝ

/-- Support of the Poisson distribution with rate `lam`: `np.random.poisson`
can return any natural number when `lam > 0`, and returns `0` with
probability one when `lam = 0`. An admissible oracle draws inside the
support. -/
def poissonSupport (lam : ℚ) : Set ℕ :=
  if lam = 0 then {0} else Set.univ

/-- The oracle only produces values the sampler can actually return. -/
def RandomDraws.Admissible (d : RandomDraws) (freq_rate : ℚ) : Prop :=
  ∀ i, d.num_claims i ∈ poissonSupport freq_rate

/-- One scipy lognormal variate `lognorm(s=sigma_severity,
scale=np.exp(mu_severity)).rvs()` realised from the standard-normal draw
`z`: `scale * exp(s * z) = exp(mu + sigma * z)` (insurancemonte.py line 55).
These values are produced only once scipy's shape check `s > 0` has passed;
the check itself, which raises for `sigma_severity ≤ 0`, is modelled in
`trial_outcome` below. -/
noncomputable def lognormSample (mu_severity sigma_severity : ℚ) (z : ℝ) : ℝ :=
  Real.exp ((mu_severity : ℝ) + (sigma_severity : ℝ) * z)

/-- `total_claims` of one trial (insurancemonte.py lines 55-56): the sum of
`num_claims` lognormal severities if `num_claims > 0`, else `0`. -/
noncomputable def total_claims (mu_severity sigma_severity : ℚ)
    (num_claims : ℕ) (zs : ℕ → ℝ) : ℝ :=
  if num_claims > 0 then
    (Finset.range num_claims).sum fun j => lognormSample mu_severity sigma_severity (zs j)
  else 0

/-- The net outcome of one trial (insurancemonte.py lines 57-59):
`prem + investment_income - total_claims - expenses`. -/
noncomputable def net_outcome (mu_severity sigma_severity prem invest_return exp_rate : ℚ)
    (num_claims : ℕ) (zs : ℕ → ℝ) : ℝ :=
  let tc := total_claims mu_severity sigma_severity num_claims zs
  let investment_income := (prem : ℝ) * (invest_return : ℝ)
  let expenses := (prem : ℝ) * (exp_rate : ℝ)
  (prem : ℝ) + investment_income - tc - expenses

/-- One iteration of the trial loop (insurancemonte.py lines 54-59).  When
the Poisson draw is positive the code calls `lognorm(s=sigma_severity,
scale=np.exp(mu_severity)).rvs(num_claims)`; scipy's generic argument
check requires the shape `s > 0` and `.rvs` raises
`ValueError("Domain error in arguments")` when it fails, so a trial with at
least one claim and `sigma_severity ≤ 0` raises.  Otherwise the trial
yields `net_outcome` (when `num_claims = 0` the ternary short-circuits and
the sampler is never constructed). -/
noncomputable def trial_outcome
    (mu_severity sigma_severity prem invest_return exp_rate : ℚ)
    (num_claims : ℕ) (zs : ℕ → ℝ) : Except String ℝ :=
  if 0 < num_claims ∧ sigma_severity ≤ 0 then
    Except.error "Domain error in arguments"
  else
    Except.ok (net_outcome mu_severity sigma_severity prem invest_return
      exp_rate num_claims zs)

/-- The `for` loop of insurancemonte.py lines 53-60: run the trials in
order, appending each outcome to the results; the first trial that raises
aborts the whole call with its error (caught, logged and re-raised by the
`except` block), so no partial list survives. -/
noncomputable def run_trials (t : ℕ → Except String ℝ) :
    List ℕ → Except String (List ℝ)
  | [] => Except.ok []
  | k :: ks =>
      match t k with
      | Except.error err => Except.error err
      | Except.ok x =>
          match run_trials t ks with
          | Except.error err => Except.error err
          | Except.ok xs => Except.ok (x :: xs)

/-- Embeds `run_monte_carlo_simulation` (insurancemonte.py lines 31-64):
validate once, then loop `for _ in range(num_simulations)` running one
trial per iteration.  `num_simulations` is a Python `int`, so it is an
`ℤ` here and `range` clips negative arguments to the empty range
(`Int.toNat`).  Any error — a validation failure or a sampler failure
inside a trial — is logged and re-raised unchanged by the `except` block,
i.e. it propagates. -/
noncomputable def run_monte_carlo_simulation (num_simulations : ℤ)
    (freq_rate mu_severity sigma_severity prem invest_return exp_rate : ℚ)
    (d : RandomDraws) : Except String (List ℝ) :=
  match validate_parameters freq_rate prem invest_return exp_rate with
  | Except.error e => Except.error e
  | Except.ok _ =>
      run_trials
        (fun i => trial_outcome mu_severity sigma_severity prem
          invest_return exp_rate (d.num_claims i) (d.normal i))
        (List.range num_simulations.toNat)

/-- Embeds `probability_of_loss = np.mean(simulation_results < 0)`
(insurancemonte.py line 91): the arithmetic mean of the 0/1 indicator of a
strictly negative outcome. -/
noncomputable def probability_of_loss (results : List ℝ) : ℝ :=
  (results.map fun x => if x < 0 then (1 : ℝ) else 0).sum / results.length

/-- A concrete oracle used for closed-form instances: zero claims per trial
and zero normal draws. -/
def zeroDraws : RandomDraws := ⟨fun _ => 0, fun _ _ => 0⟩

/-- A concrete oracle drawing exactly one claim in every trial (admissible
for any positive frequency rate), with zero normal draws. -/
def oneDraws : RandomDraws := ⟨fun _ => 1, fun _ _ => 0⟩

/-- Helper: the validator succeeds exactly when all four range conditions
hold. -/
theorem validate_parameters_ok_iff (f p i e : ℚ) :
    validate_parameters f p i e = Except.ok () ↔
      0 ≤ f ∧ 0 < p ∧ (0 ≤ i ∧ i ≤ 1) ∧ (0 ≤ e ∧ e ≤ 1) := by
  unfold validate_parameters
  split_ifs with h1 h2 h3 h4
  · simp only [false_iff]
    rintro ⟨hf, -⟩; exact absurd h1 (not_lt.mpr hf)
  · simp only [false_iff]
    rintro ⟨-, hp, -⟩; exact absurd h2 (not_le.mpr hp)
  · exact iff_of_true rfl ⟨not_lt.mp h1, not_le.mp h2, h3, h4⟩
  · simp only [false_iff]
    rintro ⟨-, -, -, he⟩; exact absurd he h4
  · simp only [false_iff]
    rintro ⟨-, -, hi, -⟩; exact absurd hi h3

/-- Helper: a trial raises no error when it draws zero claims or its
severity shape is positive, and then yields exactly `net_outcome`. -/
theorem trial_outcome_ok (mu s p i e : ℚ) (n : ℕ) (zs : ℕ → ℝ)
    (h : n = 0 ∨ 0 < s) :
    trial_outcome mu s p i e n zs =
      Except.ok (net_outcome mu s p i e n zs) := by
  unfold trial_outcome
  rcases h with h | h
  · rw [if_neg]
    intro hc
    rw [h] at hc
    exact absurd hc.1 (lt_irrefl 0)
  · rw [if_neg]
    intro hc
    exact absurd h (not_lt.mpr hc.2)

/-- Helper: a successful trial's value can only be `net_outcome`. -/
theorem trial_outcome_ok_value (mu s p i e : ℚ) (n : ℕ) (zs : ℕ → ℝ)
    (x : ℝ) (h : trial_outcome mu s p i e n zs = Except.ok x) :
    x = net_outcome mu s p i e n zs := by
  unfold trial_outcome at h
  split_ifs at h
  exact (Except.ok.inj h).symm

/-- Helper: when every listed trial succeeds, the loop returns their
outcomes in order. -/
theorem run_trials_ok (t : ℕ → Except String ℝ) (g : ℕ → ℝ)
    (ks : List ℕ) (h : ∀ k ∈ ks, t k = Except.ok (g k)) :
    run_trials t ks = Except.ok (ks.map g) := by
  induction ks with
  | nil => simp [run_trials]
  | cons k ks ih =>
      have hk := h k (List.mem_cons_self k ks)
      have hks := ih fun a ha => h a (List.mem_cons_of_mem _ ha)
      simp [run_trials, hk, hks]

/-- Helper: a successful loop can only have produced, in order, the value
each trial succeeds with. -/
theorem run_trials_ok_eq_map (t : ℕ → Except String ℝ) (g : ℕ → ℝ)
    (hval : ∀ k x, t k = Except.ok x → x = g k) :
    ∀ (ks : List ℕ) (xs : List ℝ),
      run_trials t ks = Except.ok xs → xs = ks.map g := by
  intro ks
  induction ks with
  | nil =>
      intro xs h
      simp only [run_trials, Except.ok.injEq] at h
      simp [h.symm]
  | cons k ks ih =>
      intro xs h
      unfold run_trials at h
      cases ht : t k with
      | error err => rw [ht] at h; simp at h
      | ok x =>
          rw [ht] at h
          cases hr : run_trials t ks with
          | error err => rw [hr] at h; simp at h
          | ok xs2 =>
              rw [hr] at h
              simp only [Except.ok.injEq] at h
              subst h
              rw [List.map_cons, ← ih xs2 hr, hval k x ht]

/-- Helper: after successful validation, an oracle whose every trial draws
zero claims or has a positive severity shape runs to the full mapped
outcome list. -/
theorem run_monte_carlo_simulation_ok (num : ℤ)
    (f mu s p i e : ℚ) (d : RandomDraws)
    (hok : validate_parameters f p i e = Except.ok ())
    (hshape : ∀ k, d.num_claims k = 0 ∨ 0 < s) :
    run_monte_carlo_simulation num f mu s p i e d =
      Except.ok ((List.range num.toNat).map fun k =>
        net_outcome mu s p i e (d.num_claims k) (d.normal k)) := by
  unfold run_monte_carlo_simulation
  rw [hok]
  exact run_trials_ok _ _ _ fun k _ =>
    trial_outcome_ok mu s p i e (d.num_claims k) (d.normal k) (hshape k)

/-- Helper: a successful run returns exactly the mapped `net_outcome`
list. -/
theorem run_ok_eq_map (num : ℤ) (f mu s p i e : ℚ) (d : RandomDraws)
    (l : List ℝ)
    (hrun : run_monte_carlo_simulation num f mu s p i e d = Except.ok l) :
    l = (List.range num.toNat).map fun k =>
      net_outcome mu s p i e (d.num_claims k) (d.normal k) := by
  unfold run_monte_carlo_simulation at hrun
  cases hval : validate_parameters f p i e with
  | error m => rw [hval] at hrun; simp at hrun
  | ok u =>
      rw [hval] at hrun
      exact run_trials_ok_eq_map _ _
        (fun k x hx => trial_outcome_ok_value mu s p i e
          (d.num_claims k) (d.normal k) x hx)
        (List.range num.toNat) l hrun

/-- Helper: a non-positive `num_simulations` gives an empty trial range, so
a validated call returns the empty list whatever the oracle and shape. -/
theorem run_empty_of_nonpos (num : ℤ) (f mu s p i e : ℚ) (d : RandomDraws)
    (hok : validate_parameters f p i e = Except.ok ()) (hnum : num ≤ 0) :
    run_monte_carlo_simulation num f mu s p i e d = Except.ok [] := by
  unfold run_monte_carlo_simulation
  rw [hok, Int.toNat_of_nonpos hnum, List.range_zero]
  simp [run_trials]

/-- C3: `validate_parameters` succeeds exactly when all four range conditions
hold, and otherwise reports the first failing condition in source order
(frequency, premium, investment return, expense rate), skipping the later
checks. -/
theorem validate_parameters_spec (f p i e : ℚ) :
    (validate_parameters f p i e = Except.ok () ↔
       0 ≤ f ∧ 0 < p ∧ (0 ≤ i ∧ i ≤ 1) ∧ (0 ≤ e ∧ e ≤ 1)) ∧
    (f < 0 →
       validate_parameters f p i e =
         Except.error "Frequency rate must be non-negative") ∧
    (0 ≤ f → p ≤ 0 →
       validate_parameters f p i e =
         Except.error "Premiums must be positive") ∧
    (0 ≤ f → 0 < p → ¬ (0 ≤ i ∧ i ≤ 1) →
       validate_parameters f p i e =
         Except.error "Investment return rate must be between 0 and 1") ∧
    (0 ≤ f → 0 < p → (0 ≤ i ∧ i ≤ 1) → ¬ (0 ≤ e ∧ e ≤ 1) →
       validate_parameters f p i e =
         Except.error "Expense rate must be between 0 and 1") := by
  refine ⟨validate_parameters_ok_iff f p i e, ?_, ?_, ?_, ?_⟩
  · intro h1
    unfold validate_parameters
    rw [if_pos h1]
  · intro hf h2
    unfold validate_parameters
    rw [if_neg (not_lt.mpr hf), if_pos h2]
  · intro hf hp h3
    unfold validate_parameters
    rw [if_neg (not_lt.mpr hf), if_neg (not_le.mpr hp), if_pos h3]
  · intro hf hp hi h4
    unfold validate_parameters
    rw [if_neg (not_lt.mpr hf), if_neg (not_le.mpr hp),
      if_neg (not_not.mpr hi), if_pos h4]

/-- Witness for C3: the validator accepts the scenario tuple
`(2, 50000, 0.05, 0.10)` and rejects a negative frequency rate with the
frequency message. -/
theorem validate_parameters_spec_witness :
    validate_parameters 2 50000 (1/20) (1/10) = Except.ok () ∧
    validate_parameters (-1/100) 50000 (1/20) (1/10) =
      Except.error "Frequency rate must be non-negative" :=
  ⟨(validate_parameters_spec 2 50000 (1/20) (1/10)).1.mpr (by norm_num),
   (validate_parameters_spec (-1/100) 50000 (1/20) (1/10)).2.1 (by norm_num)⟩

/-- Counterexample to C1 as stated: the tuple `(2, 50000, 0.05, 0.10)`
passes validation and `num_simulations = 1 > 0`, yet with
`sigma_severity = 0` and a first trial drawing one claim (admissible for
frequency rate 2), scipy's shape check `s > 0` fails and the call raises
instead of returning a length-1 sequence. -/
theorem run_length_counterexample :
    run_monte_carlo_simulation 1 2 0 0 50000 (1/20) (1/10) oneDraws =
      Except.error "Domain error in arguments" := by
  have hok : validate_parameters 2 50000 (1/20) (1/10) = Except.ok () := by
    norm_num [validate_parameters]
  unfold run_monte_carlo_simulation
  rw [hok]
  norm_num [run_trials, trial_outcome, oneDraws]

/-- C1 (amended): with parameters satisfying all four validation
conditions, a severity shape `sigma_severity > 0` accepted by the scipy
sampler, and a positive `num_simulations`, the engine returns a result
list of length exactly `num_simulations`, for every oracle. -/
theorem run_monte_carlo_simulation_length (num : ℤ)
    (f mu s p i e : ℚ) (d : RandomDraws)
    (hf : 0 ≤ f) (hp : 0 < p) (hi : 0 ≤ i ∧ i ≤ 1) (he : 0 ≤ e ∧ e ≤ 1)
    (hs : 0 < s) (hnum : 0 < num) :
    ∃ l, run_monte_carlo_simulation num f mu s p i e d = Except.ok l ∧
      (l.length : ℤ) = num := by
  have hok : validate_parameters f p i e = Except.ok () :=
    (validate_parameters_ok_iff f p i e).mpr ⟨hf, hp, hi, he⟩
  refine ⟨_, run_monte_carlo_simulation_ok num f mu s p i e d hok
    (fun k => Or.inr hs), ?_⟩
  rw [List.length_map, List.length_range, Int.toNat_of_nonneg hnum.le]

/-- Witness for C1: at `num_simulations = 3` with the scenario parameters,
`sigma_severity = 1`, and the zero-claims oracle, the engine yields a
length-3 result list. -/
theorem run_monte_carlo_simulation_length_witness :
    ∃ l, run_monte_carlo_simulation 3 2 0 1 50000 (1/20) (1/10) zeroDraws =
        Except.ok l ∧ (l.length : ℤ) = 3 :=
  run_monte_carlo_simulation_length 3 2 0 1 50000 (1/20) (1/10) zeroDraws
    (by norm_num) (by norm_num) (by norm_num) (by norm_num) (by norm_num)
    (by norm_num)

/-- C5: a validation failure propagates out of
`run_monte_carlo_simulation` unchanged, for every oracle alike — so the
result involves no random draw and no partial trial list is produced. -/
theorem run_monte_carlo_simulation_validation_error (num : ℤ)
    (f mu s p i e : ℚ) (msg : String)
    (hval : validate_parameters f p i e = Except.error msg) :
    ∀ d : RandomDraws,
      run_monte_carlo_simulation num f mu s p i e d = Except.error msg := by
  intro d
  unfold run_monte_carlo_simulation
  rw [hval]

/-- Witness for C5: a negative frequency rate aborts the whole call with
the frequency error, under the zero-claims oracle. -/
theorem run_monte_carlo_simulation_validation_error_witness :
    run_monte_carlo_simulation 10000 (-1/100) 0 0 50000 (1/20) (1/10)
        zeroDraws =
      Except.error "Frequency rate must be non-negative" :=
  run_monte_carlo_simulation_validation_error 10000 (-1/100) 0 0 50000
    (1/20) (1/10) "Frequency rate must be non-negative"
    (by norm_num [validate_parameters]) zeroDraws

/-- Helper: a trial's total claims amount is non-negative — it is either a
sum of exponentials or zero. -/
theorem total_claims_nonneg (mu s : ℚ) (n : ℕ) (zs : ℕ → ℝ) :
    0 ≤ total_claims mu s n zs := by
  unfold total_claims
  split
  · exact Finset.sum_nonneg fun j _ => (Real.exp_pos _).le
  · exact le_refl 0

/-- C4: every entry of a successful result list equals
`prem + prem*invest_return - total_claims - prem*exp_rate` for that trial's
claims, with the investment-income and expense terms the same fixed products
in every trial. -/
theorem run_outcome_formula (num : ℤ) (f mu s p i e : ℚ) (d : RandomDraws)
    (l : List ℝ)
    (hrun : run_monte_carlo_simulation num f mu s p i e d = Except.ok l)
    (k : ℕ) (hk : k < l.length) :
    l.getD k 0 =
      (p : ℝ) + (p : ℝ) * (i : ℝ) -
        total_claims mu s (d.num_claims k) (d.normal k) -
        (p : ℝ) * (e : ℝ) := by
  have hl := run_ok_eq_map num f mu s p i e d l hrun
  subst hl
  rw [List.getD_eq_getElem _ _ hk, List.getElem_map, List.getElem_range]
  simp only [net_outcome]

/-- Witness for C4: the first of two trials of a concrete run obeys the
net-outcome formula. -/
theorem run_outcome_formula_witness :
    ((List.range (2 : ℤ).toNat).map fun k =>
        net_outcome 0 0 50000 (1/20) (1/10)
          (zeroDraws.num_claims k) (zeroDraws.normal k)).getD 0 0 =
      ((50000 : ℚ) : ℝ) + ((50000 : ℚ) : ℝ) * ((1/20 : ℚ) : ℝ) -
        total_claims 0 0 (zeroDraws.num_claims 0) (zeroDraws.normal 0) -
        ((50000 : ℚ) : ℝ) * ((1/10 : ℚ) : ℝ) :=
  run_outcome_formula 2 2 0 0 50000 (1/20) (1/10) zeroDraws _
    (run_monte_carlo_simulation_ok 2 2 0 0 50000 (1/20) (1/10) zeroDraws
      (by norm_num [validate_parameters]) (fun k => Or.inl rfl))
    0 (by simp)

/-- C6: every outcome of a successful run is at most the zero-claims value
`prem + prem*invest_return - prem*exp_rate`, because total claims are
non-negative. -/
theorem run_outcome_upper_bound (num : ℤ) (f mu s p i e : ℚ)
    (d : RandomDraws) (l : List ℝ) (x : ℝ)
    (hrun : run_monte_carlo_simulation num f mu s p i e d = Except.ok l)
    (hx : x ∈ l) :
    x ≤ (p : ℝ) + (p : ℝ) * (i : ℝ) - (p : ℝ) * (e : ℝ) := by
  have hl := run_ok_eq_map num f mu s p i e d l hrun
  subst hl
  rcases List.mem_map.mp hx with ⟨k, -, rfl⟩
  have h0 := total_claims_nonneg mu s (d.num_claims k) (d.normal k)
  simp only [net_outcome]
  linarith

/-- Witness for C6: the single outcome of a concrete one-trial run respects
the zero-claims upper bound. -/
theorem run_outcome_upper_bound_witness :
    net_outcome 0 0 50000 (1/20) (1/10)
        (zeroDraws.num_claims 0) (zeroDraws.normal 0) ≤
      ((50000 : ℚ) : ℝ) + ((50000 : ℚ) : ℝ) * ((1/20 : ℚ) : ℝ) -
        ((50000 : ℚ) : ℝ) * ((1/10 : ℚ) : ℝ) :=
  run_outcome_upper_bound 1 2 0 0 50000 (1/20) (1/10) zeroDraws _ _
    (run_monte_carlo_simulation_ok 1 2 0 0 50000 (1/20) (1/10) zeroDraws
      (by norm_num [validate_parameters]) (fun k => Or.inl rfl))
    (by simp)

/-- C7: with frequency rate `0`, valid remaining parameters, and an oracle
drawing inside the Poisson support (Poisson with rate 0 only ever yields 0
claims), the run succeeds and every outcome equals
`prem * (1 + invest_return - exp_rate)` — no variance across trials. -/
theorem run_freq_zero_deterministic (num : ℤ) (mu s p i e : ℚ)
    (d : RandomDraws) (hadm : d.Admissible 0)
    (hp : 0 < p) (hi : 0 ≤ i ∧ i ≤ 1) (he : 0 ≤ e ∧ e ≤ 1) :
    ∃ l, run_monte_carlo_simulation num 0 mu s p i e d = Except.ok l ∧
      ∀ x ∈ l, x = (p : ℝ) * (1 + (i : ℝ) - (e : ℝ)) := by
  have hok : validate_parameters 0 p i e = Except.ok () :=
    (validate_parameters_ok_iff 0 p i e).mpr ⟨le_refl 0, hp, hi, he⟩
  have hshape : ∀ k, d.num_claims k = 0 ∨ 0 < s := fun k =>
    Or.inl (by simpa [poissonSupport] using hadm k)
  refine ⟨_, run_monte_carlo_simulation_ok num 0 mu s p i e d hok hshape, ?_⟩
  intro x hx
  rcases List.mem_map.mp hx with ⟨k, -, rfl⟩
  have h0 : d.num_claims k = 0 := by
    have hk := hadm k
    simpa [poissonSupport] using hk
  simp only [net_outcome, total_claims, h0]
  norm_num
  ring

/-- Witness for C7: a concrete five-trial run at frequency rate 0 returns
only the deterministic outcome. -/
theorem run_freq_zero_deterministic_witness :
    ∃ l, run_monte_carlo_simulation 5 0 0 0 50000 (1/20) (1/10) zeroDraws =
        Except.ok l ∧
      ∀ x ∈ l, x = ((50000 : ℚ) : ℝ) *
        (1 + ((1/20 : ℚ) : ℝ) - ((1/10 : ℚ) : ℝ)) :=
  run_freq_zero_deterministic 5 0 0 50000 (1/20) (1/10) zeroDraws
    (fun k => by simp [zeroDraws, poissonSupport])
    (by norm_num) (by norm_num) (by norm_num)

/-- C8 is a code bug: the spec says `sigma_severity = 0` degenerates each
severity sample to the constant `exp(mu_severity)` (the lognormal limit)
with the call still succeeding, but scipy's `lognorm(s=0, ...).rvs` fails
its shape check `s > 0` and raises.  At the failing input below — two
trials, one claim each (admissible for frequency rate 2), valid scenario
parameters, `sigma_severity = 0` — the call aborts with the sampler error
instead of succeeding with constant samples. -/
theorem sigma_zero_call_fails :
    run_monte_carlo_simulation 2 2 1 0 50000 (1/20) (1/10) oneDraws =
      Except.error "Domain error in arguments" := by
  have hok : validate_parameters 2 50000 (1/20) (1/10) = Except.ok () := by
    norm_num [validate_parameters]
  unfold run_monte_carlo_simulation
  rw [hok]
  norm_num [run_trials, trial_outcome, oneDraws, List.range_succ]

/-- C10: with parameters that pass validation and any `num_simulations ≤ 0`,
the engine raises no error and returns the empty result list — Python's
`range` of a non-positive bound is empty. -/
theorem run_nonpositive_num_empty (num : ℤ) (f mu s p i e : ℚ)
    (d : RandomDraws)
    (hf : 0 ≤ f) (hp : 0 < p) (hi : 0 ≤ i ∧ i ≤ 1) (he : 0 ≤ e ∧ e ≤ 1)
    (hnum : num ≤ 0) :
    run_monte_carlo_simulation num f mu s p i e d = Except.ok [] :=
  run_empty_of_nonpos num f mu s p i e d
    ((validate_parameters_ok_iff f p i e).mpr ⟨hf, hp, hi, he⟩) hnum

/-- Witness for C10: `num_simulations = -5` with the scenario parameters
yields the empty result list. -/
theorem run_nonpositive_num_empty_witness :
    run_monte_carlo_simulation (-5) 2 0 0 50000 (1/20) (1/10) zeroDraws =
      Except.ok [] :=
  run_nonpositive_num_empty (-5) 2 0 0 50000 (1/20) (1/10) zeroDraws
    (by norm_num) (by norm_num) (by norm_num) (by norm_num) (by norm_num)

/-- Counterexample to C2 as stated: at `num_simulations = 0` with valid
scenario parameters the engine returns a (empty) result list, not an
error — the entry contract `num_simulations > 0` is not enforced. -/
theorem run_zero_num_counterexample :
    run_monte_carlo_simulation 0 2 0 0 50000 (1/20) (1/10) zeroDraws =
      Except.ok [] :=
  run_empty_of_nonpos 0 2 0 0 50000 (1/20) (1/10) zeroDraws
    (by norm_num [validate_parameters]) le_rfl

/-- C2 amended: `run_monte_carlo_simulation` does not reject
`num_simulations = 0`; whenever the four parameter checks pass it returns
the empty sequence with no error. -/
theorem run_zero_num_not_rejected (f mu s p i e : ℚ) (d : RandomDraws)
    (hf : 0 ≤ f) (hp : 0 < p) (hi : 0 ≤ i ∧ i ≤ 1) (he : 0 ≤ e ∧ e ≤ 1) :
    run_monte_carlo_simulation 0 f mu s p i e d = Except.ok [] :=
  run_empty_of_nonpos 0 f mu s p i e d
    ((validate_parameters_ok_iff f p i e).mpr ⟨hf, hp, hi, he⟩) le_rfl

/-- Witness for the amended C2: concrete valid parameters at
`num_simulations = 0`. -/
theorem run_zero_num_not_rejected_witness :
    run_monte_carlo_simulation 0 3 0 0 40000 (1/25) (1/5) zeroDraws =
      Except.ok [] :=
  run_zero_num_not_rejected 3 0 0 40000 (1/25) (1/5) zeroDraws
    (by norm_num) (by norm_num) (by norm_num) (by norm_num)

/-- Helper: the indicator sum behind `np.mean(results < 0)` counts the
strictly negative entries. -/
theorem indicator_sum_eq_countP (results : List ℝ) :
    (results.map fun x => if x < 0 then (1 : ℝ) else 0).sum =
      ((results.countP fun x => decide (x < 0) : ℕ) : ℝ) := by
  induction results with
  | nil => simp
  | cons a l ih =>
      simp only [List.map_cons, List.sum_cons, List.countP_cons, ih]
      by_cases ha : a < 0
      · simp [ha]
        ring
      · simp [ha]

/-- C9: `probability_of_loss` equals the count of strictly negative
outcomes divided by the sequence length, and lies in `[0, 1]` for every
non-empty result sequence. -/
theorem probability_of_loss_spec (results : List ℝ) :
    probability_of_loss results =
      ((results.countP fun x => decide (x < 0) : ℕ) : ℝ) / results.length ∧
    (results ≠ [] →
      0 ≤ probability_of_loss results ∧ probability_of_loss results ≤ 1) := by
  have hcount := indicator_sum_eq_countP results
  constructor
  · unfold probability_of_loss
    rw [hcount]
  · intro hne
    have hlen : 0 < (results.length : ℝ) := by
      have hpos := List.length_pos.mpr hne
      exact_mod_cast hpos
    unfold probability_of_loss
    rw [hcount]
    refine ⟨by positivity, ?_⟩
    rw [div_le_one hlen]
    exact_mod_cast List.countP_le_length _

/-- Witness for C9: the loss probability of the concrete sequence
`[-1, 2]` lies in `[0, 1]`. -/
theorem probability_of_loss_spec_witness :
    0 ≤ probability_of_loss [(-1 : ℝ), 2] ∧
      probability_of_loss [(-1 : ℝ), 2] ≤ 1 :=
  (probability_of_loss_spec [(-1 : ℝ), 2]).2 (by simp)
